import Mathlib

/-!
# Verification of `src/scripts/convert_opening_book.py`

A shallow embedding of the opening-book converter: coordinate translation,
move classification, weight/evaluation scoring, per-position aggregation,
the statistics computed for the migration report, and the from-field
rendering of the Rust code generator.  Python's unbounded signed integers
are modelled as `Int`; Python exceptions (`ValueError` from `int()` and
from the explicit `raise` statements, `IndexError` from string indexing)
are modelled with `Except PyError`.  Python `dict`s are modelled as
insertion-ordered association lists, which is exactly the iteration order
Python guarantees.
-/

/-- Python exceptions raised by the converter: `ValueError` carries the
message of the `raise` (or of a failed `int()` parse), `IndexError` comes
from out-of-range string indexing. -/
inductive PyError where
  | valueError : String → PyError
  | indexError : PyError
deriving DecidableEq

/-- The `JsonMove` dataclass: `from_pos`, `to_pos`, `promote`, `piece_type`. -/
structure JsonMove where
  from_pos : String
  to_pos : String
  promote : Bool := false
  piece_type : String := ""
deriving DecidableEq

/-- The `ConvertedMove` dataclass.  The source's `move_notation` field is
named `move_text` here. -/
structure ConvertedMove where
  from_row : Int
  from_col : Int
  to_row : Int
  to_col : Int
  piece_type : String
  is_drop : Bool
  is_promotion : Bool
  weight : Int
  evaluation : Int
  opening_name : String
  move_text : String
deriving DecidableEq

/-- The `ConvertedPosition` dataclass: a FEN string with its move list. -/
structure ConvertedPosition where
  fen : String
  moves : List ConvertedMove
deriving DecidableEq

/-- `self.opening_weights`: the fixed per-opening base-weight table. -/
def opening_weights : List (String × Int) :=
  [("Aggressive Rook", 850),
   ("Yagura", 800),
   ("Kakugawari (Bishop Exchange)", 750),
   ("Shikenbisya (Fourth File Rook)", 700),
   ("Aigakari (Double Wing Attack)", 650),
   ("Side Pawn Picker (Yokofudori)", 600)]

/-- `self.evaluation_scores`: the fixed category-to-score table. -/
def evaluation_scores : List (String × Int) :=
  [("development", 15),
   ("central_control", 20),
   ("king_safety", 25),
   ("tactical", 30),
   ("positional", 10),
   ("neutral", 0)]

/-- Python's `d.get(key, default)` on an association-list dictionary. -/
def dictGetD (d : List (String × Int)) (key : String) (default : Int) : Int :=
  (d.lookup key).getD default

/-- Python `int(c)` on a single character: succeeds exactly on a decimal
digit, otherwise raises `ValueError`. -/
def charToInt (c : Char) : Except PyError Int :=
  if c.isDigit then .ok ((c.toNat : Int) - 48)
  else .error (.valueError ("invalid literal for int() with base 10: " ++
    String.singleton c))

/-- Python `s[i]`: the `i`-th character, or `IndexError` when out of range. -/
def strIndex (s : String) (i : Nat) : Except PyError Char :=
  match s.data.get? i with
  | some c => .ok c
  | none => .error .indexError

/-- `OpeningBookConverter.convert_coordinate`: a two-character token
`"colrow"` with both digits in 1-9 becomes the zero-based `(row, col)`
pair; a token of any other length, a non-digit character, or an
out-of-bounds decode raises `ValueError`. -/
def convert_coordinate (coord : String) : Except PyError (Int × Int) :=
  if coord.length ≠ 2 then
    .error (.valueError ("Invalid coordinate format: " ++ coord))
  else do
    let c0 ← strIndex coord 0
    let col ← (charToInt c0).map (· - 1)
    let c1 ← strIndex coord 1
    let row ← (charToInt c1).map (· - 1)
    if ¬(0 ≤ row ∧ row ≤ 8) ∨ ¬(0 ≤ col ∧ col ≤ 8) then
      .error (.valueError ("Coordinate out of bounds: " ++ coord))
    else
      .ok (row, col)

/-- Python's substring test `needle in haystack`. -/
def strContains (haystack needle : String) : Bool :=
  decide (needle.data <:+: haystack.data)

instance {ε α : Type} [DecidableEq ε] [DecidableEq α] : DecidableEq (Except ε α)
  | .ok a, .ok b =>
      if h : a = b then .isTrue (by rw [h]) else .isFalse (by simp [h])
  | .error e, .error f =>
      if h : e = f then .isTrue (by rw [h]) else .isFalse (by simp [h])
  | .ok _, .error _ => .isFalse (by simp)
  | .error _, .ok _ => .isFalse (by simp)

/-- `OpeningBookConverter.determine_piece_type`: heuristic piece-type
lookup keyed on the opening name and substring patterns of the move's
squares; defaults to `"Pawn"`. -/
def determine_piece_type (move : JsonMove) (fen : String) (opening_name : String) :
    String :=
  let _ := fen
  if opening_name = "Aggressive Rook" then
    if strContains move.from_pos "27" ∨ strContains move.from_pos "26" ∨
        strContains move.from_pos "25" then "Rook" else "Pawn"
  else if opening_name = "Yagura" then
    if strContains move.from_pos "77" ∨ strContains move.from_pos "76" then "Pawn"
    else if strContains move.from_pos "69" ∨ strContains move.to_pos "78" then "Gold"
    else "Pawn"
  else if opening_name = "Kakugawari (Bishop Exchange)" then
    if strContains move.from_pos "22" ∨ strContains move.to_pos "88" then "Bishop"
    else "Pawn"
  else "Pawn"

/-- `OpeningBookConverter.determine_move_type`: first-match-wins category
resolution. -/
def determine_move_type (move : JsonMove) (opening_name : String) : String :=
  if move.from_pos = "drop" then "tactical"
  else if move.promote then "tactical"
  else if move.to_pos ∈ ["44", "45", "54", "55"] then "central_control"
  else if move.to_pos ∈ ["77", "78", "87", "88"] then "king_safety"
  else if opening_name ∈ ["Yagura", "Aggressive Rook"] then "development"
  else "positional"

/-- `OpeningBookConverter.assign_weight`: opening base weight (default
500), promotion bonus 100 else drop bonus 50, per-opening source-square
bonus 50, capped at 1000. -/
def assign_weight (move : JsonMove) (opening_name : String) : Int :=
  let base_weight := dictGetD opening_weights opening_name 500
  let base_weight :=
    if move.promote then base_weight + 100
    else if move.from_pos = "drop" then base_weight + 50
    else base_weight
  let base_weight :=
    if opening_name = "Aggressive Rook" then
      if move.from_pos ∈ ["27", "26", "25"] then base_weight + 50 else base_weight
    else if opening_name = "Yagura" then
      if move.from_pos ∈ ["77", "69"] then base_weight + 50 else base_weight
    else base_weight
  min base_weight 1000

/-- `OpeningBookConverter.assign_evaluation`: category base score plus an
opening bonus (5 for Aggressive Rook or Yagura, 10 for the bishop
exchange, nothing otherwise) plus 15 for a promotion; never capped. -/
def assign_evaluation (move : JsonMove) (opening_name : String) : Int :=
  let move_type := determine_move_type move opening_name
  let base_eval := dictGetD evaluation_scores move_type 0
  let base_eval :=
    if opening_name ∈ ["Aggressive Rook", "Yagura"] then base_eval + 5
    else if opening_name ∈ ["Kakugawari (Bishop Exchange)"] then base_eval + 10
    else base_eval
  let base_eval := if move.promote then base_eval + 15 else base_eval
  base_eval

/-- `OpeningBookConverter.generate_move_notation`, here `generate_move_text`:
USI-style text for a move.  `int(...)` on a non-digit raises `ValueError`
and indexing an out-of-range position raises `IndexError`, exactly as in
Python. -/
def generate_move_text (move : JsonMove) : Except PyError String :=
  if move.from_pos = "drop" then do
    let piece :=
      match move.piece_type.data with
      | c :: _ => String.singleton c
      | [] => "P"
    let t0 ← strIndex move.to_pos 0
    let d0 ← charToInt t0
    let t1 ← strIndex move.to_pos 1
    let d1 ← charToInt t1
    let to_coord := toString d0 ++ String.singleton (Char.ofNat (97 + d1 - 1).toNat)
    .ok (piece ++ "*" ++ to_coord)
  else do
    let f0 ← strIndex move.from_pos 0
    let e0 ← charToInt f0
    let f1 ← strIndex move.from_pos 1
    let e1 ← charToInt f1
    let from_coord := toString e0 ++ String.singleton (Char.ofNat (97 + e1 - 1).toNat)
    let t0 ← strIndex move.to_pos 0
    let d0 ← charToInt t0
    let t1 ← strIndex move.to_pos 1
    let d1 ← charToInt t1
    let to_coord := toString d0 ++ String.singleton (Char.ofNat (97 + d1 - 1).toNat)
    let base := from_coord ++ to_coord
    .ok (if move.promote then base ++ "+" else base)

/-- `OpeningBookConverter.convert_move`: drop moves record a placeholder
`(0, 0)` origin together with `is_drop = true` (the source comment:
"Will be None in final format"); board moves convert both coordinates. -/
def convert_move (move : JsonMove) (fen : String) (opening_name : String) :
    Except PyError ConvertedMove :=
  if move.from_pos = "drop" then do
    let (to_row, to_col) ← convert_coordinate move.to_pos
    let piece_type := determine_piece_type move fen opening_name
    let mtext ← generate_move_text move
    .ok { from_row := 0, from_col := 0
          to_row := to_row, to_col := to_col
          piece_type := piece_type
          is_drop := true
          is_promotion := move.promote
          weight := assign_weight move opening_name
          evaluation := assign_evaluation move opening_name
          opening_name := opening_name
          move_text := mtext }
  else do
    let (from_row, from_col) ← convert_coordinate move.from_pos
    let (to_row, to_col) ← convert_coordinate move.to_pos
    let piece_type := determine_piece_type move fen opening_name
    let mtext ← generate_move_text move
    .ok { from_row := from_row, from_col := from_col
          to_row := to_row, to_col := to_col
          piece_type := piece_type
          is_drop := false
          is_promotion := move.promote
          weight := assign_weight move opening_name
          evaluation := assign_evaluation move opening_name
          opening_name := opening_name
          move_text := mtext }

/-- One raw move object of the input JSON: the four fields, each possibly
absent.  `convert_opening` reads them with `.get` and its defaults. -/
structure MoveData where
  fromField : Option String := none
  toField : Option String := none
  promoteField : Option Bool := none
  pieceTypeField : Option String := none

/-- The `JsonOpening` dataclass: an opening name and its insertion-ordered
position-to-moves dictionary. -/
structure JsonOpening where
  name : String
  moves : List (String × List MoveData)

/-- The inner loop of `convert_opening`: build each `JsonMove` with the
`.get` defaults and convert it, in input order. -/
def convert_moves_for_fen (opening_name fen : String) :
    List MoveData → Except PyError (List ConvertedMove)
  | [] => .ok []
  | md :: rest => do
      let move : JsonMove :=
        { from_pos := md.fromField.getD ""
          to_pos := md.toField.getD ""
          promote := md.promoteField.getD false
          piece_type := md.pieceTypeField.getD "" }
      let cm ← convert_move move fen opening_name
      let cms ← convert_moves_for_fen opening_name fen rest
      .ok (cm :: cms)

/-- The outer loop of `convert_opening` over the position dictionary's
entries, in dictionary (= insertion) order. -/
def convert_positions (opening_name : String) :
    List (String × List MoveData) → Except PyError (List ConvertedPosition)
  | [] => .ok []
  | (fen, mds) :: rest => do
      let cms ← convert_moves_for_fen opening_name fen mds
      let ps ← convert_positions opening_name rest
      .ok (⟨fen, cms⟩ :: ps)

/-- `OpeningBookConverter.convert_opening`: one `ConvertedPosition` per
entry of the opening's position dictionary. -/
def convert_opening (opening : JsonOpening) : Except PyError (List ConvertedPosition) :=
  convert_positions opening.name opening.moves

/-- `OpeningBookConverter.convert_json_file` after JSON parsing: convert
every opening record and concatenate the per-opening position lists with
`all_positions.extend(positions)`. -/
def convert_json_file : List JsonOpening → Except PyError (List ConvertedPosition)
  | [] => .ok []
  | o :: rest => do
      let ps ← convert_opening o
      let rest' ← convert_json_file rest
      .ok (ps ++ rest')

/-- The from-field as `generate_rust_code` renders it: `None` for a drop,
`Some(Position::new(from_row, from_col))` otherwise. -/
def rustFromField (m : ConvertedMove) : Option (Int × Int) :=
  if m.is_drop then none else some (m.from_row, m.from_col)

/-- One step of the Python counting idiom
`counts[key] = counts.get(key, 0) + 1` on an insertion-ordered dictionary:
update the existing entry in place, or append a new one at the end. -/
def bumpCount : List (String × Nat) → String → List (String × Nat)
  | [], key => [(key, 1)]
  | (k, v) :: rest, key =>
      if k = key then (k, v + 1) :: rest else (k, v) :: bumpCount rest key

/-- The loop state of `generate_migration_report`: the two count
dictionaries and the three weight buckets. -/
structure MoveTally where
  opening_counts : List (String × Nat) := []
  piece_type_counts : List (String × Nat) := []
  high : Nat := 0
  medium : Nat := 0
  low : Nat := 0

/-- The body of `generate_migration_report`'s inner loop: count the
opening, count the piece type, and bucket the weight
(`>= 800` high, `>= 500` medium, otherwise low). -/
def tallyMove (s : MoveTally) (m : ConvertedMove) : MoveTally :=
  let s := { s with opening_counts := bumpCount s.opening_counts m.opening_name }
  let s := { s with piece_type_counts := bumpCount s.piece_type_counts m.piece_type }
  if 800 ≤ m.weight then { s with high := s.high + 1 }
  else if 500 ≤ m.weight then { s with medium := s.medium + 1 }
  else { s with low := s.low + 1 }

/-- The nested `for pos in positions: for move_data in pos.moves:` loop. -/
def tallyPositions (positions : List ConvertedPosition) : MoveTally :=
  positions.foldl (fun s p => p.moves.foldl tallyMove s) {}

/-- The statistics `generate_migration_report` computes before rendering
them to text. -/
structure MigrationStats where
  total_positions : Nat
  total_moves : Nat
  opening_counts : List (String × Nat)
  piece_type_counts : List (String × Nat)
  weight_high : Nat
  weight_medium : Nat
  weight_low : Nat

/-- The statistics part of `OpeningBookConverter.generate_migration_report`:
`total_positions = len(positions)`, `total_moves = sum(len(pos.moves))`,
and the tallies of the counting loop. -/
def migration_stats (positions : List ConvertedPosition) : MigrationStats :=
  let t := tallyPositions positions
  { total_positions := positions.length
    total_moves := (positions.map (fun p => p.moves.length)).sum
    opening_counts := t.opening_counts
    piece_type_counts := t.piece_type_counts
    weight_high := t.high
    weight_medium := t.medium
    weight_low := t.low }

/-- Descending order on count entries, the order produced by
`sorted(counts.items(), key=lambda x: x[1], reverse=True)`. -/
def countGE (a b : String × Nat) : Prop := b.2 ≤ a.2

instance : DecidableRel countGE := fun a b => Nat.decLe b.2 a.2

instance : IsTotal (String × Nat) countGE := ⟨fun a b => Nat.le_total b.2 a.2⟩

instance : IsTrans (String × Nat) countGE := ⟨fun _ _ _ h1 h2 => Nat.le_trans h2 h1⟩

/-- Python's stable `sorted(..., key=lambda x: x[1], reverse=True)`,
modelled by a stable sort under `countGE`. -/
def sortDescByCount (l : List (String × Nat)) : List (String × Nat) :=
  List.insertionSort countGE l

/-- The `Opening Distribution` section of the report, sorted descending. -/
def opening_distribution (positions : List ConvertedPosition) : List (String × Nat) :=
  sortDescByCount (migration_stats positions).opening_counts

/-- The `Piece Type Distribution` section of the report, sorted descending. -/
def piece_type_distribution (positions : List ConvertedPosition) : List (String × Nat) :=
  sortDescByCount (migration_stats positions).piece_type_counts

/-! ## Helper lemmas -/

theorem opening_base_weight_bounds (o : String) :
    500 ≤ dictGetD opening_weights o 500 ∧ dictGetD opening_weights o 500 ≤ 850 := by
  simp only [dictGetD, opening_weights, List.lookup]
  repeat' split
  all_goals simp

/-! ## Claim-side definitions and theorems -/

/-- Stated from the claim (C1): the small per-opening allow-list of
(opening, from-square) pairs earning the extra 50. -/
def claimAllowList : List (String × String) :=
  [("Aggressive Rook", "27"), ("Aggressive Rook", "26"), ("Aggressive Rook", "25"),
   ("Yagura", "77"), ("Yagura", "69")]

/-- Stated from the claim (C1): opening base weight (default 500 for an
unknown opening), plus 100 for promotion or else 50 for a drop, plus 50
when the opening-and-from-square pair is in the allow-list, capped at
1000. -/
def claimWeight (move : JsonMove) (opening_name : String) : Int :=
  let base := dictGetD opening_weights opening_name 500
  let bonus1 : Int := if move.promote then 100 else if move.from_pos = "drop" then 50 else 0
  let bonus2 : Int := if (opening_name, move.from_pos) ∈ claimAllowList then 50 else 0
  min (base + bonus1 + bonus2) 1000

/-- C1: `assign_weight` is the claimed base-plus-bonuses formula capped at
1000, and its value always lies in `[0, 1000]`. -/
theorem assign_weight_spec (move : JsonMove) (opening_name : String) :
    assign_weight move opening_name = claimWeight move opening_name ∧
    0 ≤ assign_weight move opening_name ∧ assign_weight move opening_name ≤ 1000 := by
  obtain ⟨hb1, hb2⟩ := opening_base_weight_bounds opening_name
  unfold assign_weight claimWeight
  simp only [claimAllowList, List.mem_cons, List.not_mem_nil, or_false, Prod.mk.injEq]
  split_ifs <;> simp_all <;> omega

/-- C6: promoting is never worse — with all other fields equal, the weight
with `promote = true` is at least the weight with `promote = false`. -/
theorem assign_weight_promote_mono (f t pt o : String) :
    assign_weight { from_pos := f, to_pos := t, promote := false, piece_type := pt } o ≤
    assign_weight { from_pos := f, to_pos := t, promote := true, piece_type := pt } o := by
  unfold assign_weight
  dsimp only
  split_ifs <;> simp_all

/-- C10: every assigned weight lies in `[500, 1000]`: the base-weight
table's entries and the unknown-opening default are at least 500, every
bonus is non-negative, and the cap is 1000. -/
theorem assign_weight_range (move : JsonMove) (opening_name : String) :
    500 ≤ assign_weight move opening_name ∧ assign_weight move opening_name ≤ 1000 := by
  obtain ⟨hb1, hb2⟩ := opening_base_weight_bounds opening_name
  unfold assign_weight
  dsimp only
  split_ifs <;> omega

/-- C5: `determine_move_type` resolves the category first-match-wins:
drop, then promotion, then the central squares, then the king-safety
squares, then the developing openings, else positional. -/
theorem determine_move_type_order (move : JsonMove) (opening_name : String) :
    (move.from_pos = "drop" → determine_move_type move opening_name = "tactical") ∧
    (move.from_pos ≠ "drop" → move.promote = true →
      determine_move_type move opening_name = "tactical") ∧
    (move.from_pos ≠ "drop" → move.promote = false →
      move.to_pos ∈ ["44", "45", "54", "55"] →
      determine_move_type move opening_name = "central_control") ∧
    (move.from_pos ≠ "drop" → move.promote = false →
      move.to_pos ∉ ["44", "45", "54", "55"] →
      move.to_pos ∈ ["77", "78", "87", "88"] →
      determine_move_type move opening_name = "king_safety") ∧
    (move.from_pos ≠ "drop" → move.promote = false →
      move.to_pos ∉ ["44", "45", "54", "55"] →
      move.to_pos ∉ ["77", "78", "87", "88"] →
      opening_name ∈ ["Yagura", "Aggressive Rook"] →
      determine_move_type move opening_name = "development") ∧
    (move.from_pos ≠ "drop" → move.promote = false →
      move.to_pos ∉ ["44", "45", "54", "55"] →
      move.to_pos ∉ ["77", "78", "87", "88"] →
      opening_name ∉ ["Yagura", "Aggressive Rook"] →
      determine_move_type move opening_name = "positional") := by
  unfold determine_move_type
  refine ⟨?_, ?_, ?_, ?_, ?_, ?_⟩
  · intro h1
    simp [h1]
  · intro h1 h2
    simp [h1, h2]
  · intro h1 h2 h3
    simp [h1, h2, h3]
  · intro h1 h2 h3 h4
    simp [h1, h2, h3, h4]
  · intro h1 h2 h3 h4 h5
    simp [h1, h2, h3, h4, h5]
  · intro h1 h2 h3 h4 h5
    simp [h1, h2, h3, h4, h5]

/-- Witness for C5: a drop is tactical; a quiet pawn push in an unknown
opening is positional. -/
theorem determine_move_type_order_witness :
    determine_move_type { from_pos := "drop", to_pos := "55" } "Test" = "tactical" ∧
    determine_move_type { from_pos := "77", to_pos := "76" } "Test" = "positional" :=
  ⟨(determine_move_type_order { from_pos := "drop", to_pos := "55" } "Test").1 rfl,
   (determine_move_type_order { from_pos := "77", to_pos := "76" } "Test").2.2.2.2.2
     (by decide) rfl (by decide) (by decide) (by decide)⟩

/-- Stated from the claim (C2): evaluation = category base score + 10 for
a bishop-exchange-class opening and 5 for every other opening + 15 for a
promotion, with no cap. -/
def claimEvaluation (move : JsonMove) (opening_name : String) : Int :=
  dictGetD evaluation_scores (determine_move_type move opening_name) 0 +
  (if opening_name = "Kakugawari (Bishop Exchange)" then 10 else 5) +
  (if move.promote then 15 else 0)

/-- Counterexample to C2: for an opening outside the two favoured groups
the code adds no opening-tier bonus at all, while the claim adds 5. -/
theorem assign_evaluation_counterexample :
    assign_evaluation { from_pos := "11", to_pos := "12" }
        "Shikenbisya (Fourth File Rook)" = 10 ∧
    claimEvaluation { from_pos := "11", to_pos := "12" }
        "Shikenbisya (Fourth File Rook)" = 15 ∧
    assign_evaluation { from_pos := "11", to_pos := "12" }
        "Shikenbisya (Fourth File Rook)" ≠
      claimEvaluation { from_pos := "11", to_pos := "12" }
        "Shikenbisya (Fourth File Rook)" := by decide

/-- Stated from the amended claim (C2): the opening-tier bonus is 5 for
Aggressive Rook or Yagura, 10 for the bishop exchange, and 0 for every
other opening. -/
def amendedEvaluation (move : JsonMove) (opening_name : String) : Int :=
  dictGetD evaluation_scores (determine_move_type move opening_name) 0 +
  (if opening_name ∈ ["Aggressive Rook", "Yagura"] then 5
   else if opening_name ∈ ["Kakugawari (Bishop Exchange)"] then 10 else 0) +
  (if move.promote then 15 else 0)

/-- C2 (amended): `assign_evaluation` is the category base score plus the
amended opening-tier bonus plus the 15-point promotion bonus, and no upper
cap is applied. -/
theorem assign_evaluation_amended (move : JsonMove) (opening_name : String) :
    assign_evaluation move opening_name = amendedEvaluation move opening_name := by
  unfold assign_evaluation amendedEvaluation
  dsimp only
  split_ifs <;> omega

/-- Statement helper for the coordinate claims: the decimal values of a
token's two characters, when it has exactly two characters and both are
digits; `none` otherwise. -/
def decodeDigits (coord : String) : Option (Int × Int) :=
  match coord.data with
  | [c0, c1] =>
      if c0.isDigit ∧ c1.isDigit then
        some ((c0.toNat : Int) - 48, (c1.toNat : Int) - 48)
      else none
  | _ => none

@[simp] theorem except_bind_ok {α β : Type} (a : α) (f : α → Except PyError β) :
    (Except.ok a : Except PyError α) >>= f = f a := rfl

@[simp] theorem except_bind_error {α β : Type} (e : PyError)
    (f : α → Except PyError β) :
    (Except.error e : Except PyError α) >>= f = Except.error e := rfl

@[simp] theorem except_map_ok {α β : Type} (a : α) (f : α → β) :
    (Except.ok a : Except PyError α).map f = Except.ok (f a) := rfl

@[simp] theorem except_map_error {α β : Type} (e : PyError) (f : α → β) :
    (Except.error e : Except PyError α).map f = Except.error e := rfl

theorem convert_coordinate_two_digits (coord : String) (c0 c1 : Char)
    (hdata : coord.data = [c0, c1]) (h0 : c0.isDigit = true) (h1 : c1.isDigit = true) :
    convert_coordinate coord =
      if ¬(0 ≤ (c1.toNat : Int) - 48 - 1 ∧ (c1.toNat : Int) - 48 - 1 ≤ 8) ∨
          ¬(0 ≤ (c0.toNat : Int) - 48 - 1 ∧ (c0.toNat : Int) - 48 - 1 ≤ 8) then
        .error (.valueError ("Coordinate out of bounds: " ++ coord))
      else .ok ((c1.toNat : Int) - 48 - 1, (c0.toNat : Int) - 48 - 1) := by
  have hlen : coord.length = 2 := by
    simp [String.length, hdata]
  have hs0 : strIndex coord 0 = .ok c0 := by simp [strIndex, hdata]
  have hs1 : strIndex coord 1 = .ok c1 := by simp [strIndex, hdata]
  have hc0 : charToInt c0 = .ok ((c0.toNat : Int) - 48) := by simp [charToInt, h0]
  have hc1 : charToInt c1 = .ok ((c1.toNat : Int) - 48) := by simp [charToInt, h1]
  unfold convert_coordinate
  rw [if_neg (by simp [hlen])]
  simp only [hs0, hs1, hc0, hc1, except_bind_ok, except_map_ok]

theorem decodeDigits_some {coord : String} {a b : Int}
    (h : decodeDigits coord = some (a, b)) :
    ∃ c0 c1, coord.data = [c0, c1] ∧ c0.isDigit = true ∧ c1.isDigit = true ∧
      a = (c0.toNat : Int) - 48 ∧ b = (c1.toNat : Int) - 48 := by
  unfold decodeDigits at h
  rcases hd : coord.data with _ | ⟨c0, _ | ⟨c1, _ | ⟨c2, tl⟩⟩⟩ <;> rw [hd] at h <;>
    simp at h
  obtain ⟨⟨h0, h1⟩, ha, hb⟩ := h
  exact ⟨c0, c1, rfl, h0, h1, ha.symm, hb.symm⟩

/-- C3: a two-character token whose digits decode to a row and column in
`[0, 8]` converts to that zero-based `(row, col)` pair; a token of another
length, or one whose decode falls outside `[0, 8]`, fails with the
`ValueError` that the spec calls `InvalidCoordinate`. -/
theorem convert_coordinate_correct (coord : String) (a b : Int) :
    (decodeDigits coord = some (a, b) →
      ((0 ≤ b - 1 ∧ b - 1 ≤ 8 ∧ 0 ≤ a - 1 ∧ a - 1 ≤ 8) →
        convert_coordinate coord = .ok (b - 1, a - 1)) ∧
      (¬(0 ≤ b - 1 ∧ b - 1 ≤ 8 ∧ 0 ≤ a - 1 ∧ a - 1 ≤ 8) →
        ∃ msg, convert_coordinate coord = .error (.valueError msg))) ∧
    (coord.length ≠ 2 → ∃ msg, convert_coordinate coord = .error (.valueError msg)) := by
  constructor
  · intro hdec
    obtain ⟨c0, c1, hd, h0, h1, ha, hb⟩ := decodeDigits_some hdec
    subst ha hb
    rw [convert_coordinate_two_digits coord c0 c1 hd h0 h1]
    constructor
    · intro hin
      rw [if_neg (by omega)]
    · intro hout
      rw [if_pos (by omega)]
      exact ⟨_, rfl⟩
  · intro hlen
    unfold convert_coordinate
    rw [if_pos hlen]
    exact ⟨_, rfl⟩

/-- Witness for C3: `"27"` converts to `(6, 1)`; `"05"` decodes out of
bounds; `"123"` has the wrong length. -/
theorem convert_coordinate_correct_witness :
    convert_coordinate "27" = .ok (6, 1) ∧
    (∃ msg, convert_coordinate "05" = .error (.valueError msg)) ∧
    (∃ msg, convert_coordinate "123" = .error (.valueError msg)) :=
  ⟨((convert_coordinate_correct "27" 2 7).1 (by decide)).1 (by decide),
   ((convert_coordinate_correct "05" 0 5).1 (by decide)).2 (by decide),
   (convert_coordinate_correct "123" 0 0).2 (by decide)⟩

/-- Counterexample to C8: `"7g"` is a well-formed token of the algebraic
dialect used elsewhere in the repository, yet `convert_coordinate` — which
has no dialect parameter — fails on it. -/
theorem convert_coordinate_algebraic_counterexample :
    convert_coordinate "7g" =
      .error (.valueError "invalid literal for int() with base 10: g") := by decide

/-- C8 (amended): the translator handles only the pure-digit dialect; a
two-character token with a non-digit character in either place fails with
`ValueError`. -/
theorem convert_coordinate_digit_dialect_only (coord : String) (c0 c1 : Char)
    (hdata : coord.data = [c0, c1]) :
    (c0.isDigit = false → ∃ msg, convert_coordinate coord = .error (.valueError msg)) ∧
    (c1.isDigit = false → ∃ msg, convert_coordinate coord = .error (.valueError msg)) := by
  have hlen : coord.length = 2 := by simp [String.length, hdata]
  have hs0 : strIndex coord 0 = .ok c0 := by simp [strIndex, hdata]
  have hs1 : strIndex coord 1 = .ok c1 := by simp [strIndex, hdata]
  unfold convert_coordinate
  rw [if_neg (by simp [hlen])]
  constructor
  · intro h0
    have hc0 : charToInt c0 = .error (.valueError
        ("invalid literal for int() with base 10: " ++ String.singleton c0)) := by
      simp [charToInt, h0]
    simp only [hs0, except_bind_ok, hc0, except_map_error, except_bind_error]
    exact ⟨_, rfl⟩
  · intro h1
    cases hd0 : c0.isDigit with
    | false =>
        have hc0 : charToInt c0 = .error (.valueError
            ("invalid literal for int() with base 10: " ++ String.singleton c0)) := by
          simp [charToInt, hd0]
        simp only [hs0, except_bind_ok, hc0, except_map_error, except_bind_error]
        exact ⟨_, rfl⟩
    | true =>
        have hc0 : charToInt c0 = .ok ((c0.toNat : Int) - 48) := by simp [charToInt, hd0]
        have hc1 : charToInt c1 = .error (.valueError
            ("invalid literal for int() with base 10: " ++ String.singleton c1)) := by
          simp [charToInt, h1]
        simp only [hs0, hs1, hc0, hc1, except_bind_ok, except_map_ok,
          except_map_error, except_bind_error]
        exact ⟨_, rfl⟩

/-- Witness for C8 (amended): the algebraic token `"7g"` fails. -/
theorem convert_coordinate_digit_dialect_only_witness :
    ∃ msg, convert_coordinate "7g" = .error (.valueError msg) :=
  (convert_coordinate_digit_dialect_only "7g" '7' 'g' (by decide)).2 (by decide)

/-- C4: in the rendered output every drop move's from-field is the `None`
marker — never `Some((0, 0))` — and every board move's from-field carries
its real origin, so absence is distinguishable from a genuine `(0, 0)`
square. -/
theorem convert_move_drop_from_absent (move : JsonMove) (fen opening_name : String)
    (cm : ConvertedMove) (h : convert_move move fen opening_name = .ok cm) :
    (cm.is_drop = true → rustFromField cm = none ∧ rustFromField cm ≠ some (0, 0)) ∧
    (cm.is_drop = false → rustFromField cm = some (cm.from_row, cm.from_col)) := by
  unfold convert_move at h
  split at h
  · rcases hto : convert_coordinate move.to_pos with e | ⟨tr, tc⟩ <;> simp [hto] at h
    rcases hg : generate_move_text move with e | s <;> simp [hg] at h
    subst h
    simp [rustFromField]
  · rcases hfrom : convert_coordinate move.from_pos with e | ⟨fr, fc⟩ <;>
      simp [hfrom] at h
    rcases hto : convert_coordinate move.to_pos with e | ⟨tr, tc⟩ <;> simp [hto] at h
    rcases hg : generate_move_text move with e | s <;> simp [hg] at h
    subst h
    simp [rustFromField]

/-- Witness for C4: converting the drop `P*5e` succeeds and its rendered
from-field is the `None` marker. -/
theorem convert_move_drop_from_absent_witness :
    ∃ cm, convert_move { from_pos := "drop", to_pos := "55", piece_type := "P" }
        "fen" "Test" = .ok cm ∧ rustFromField cm = none := by
  have h : convert_move { from_pos := "drop", to_pos := "55", piece_type := "P" }
      "fen" "Test" =
      .ok ⟨0, 0, 4, 4, "Pawn", true, false, 550, 30, "Test", "P*5e"⟩ := by decide
  exact ⟨_, h, ((convert_move_drop_from_absent _ "fen" "Test" _ h).1 (by decide)).1⟩

theorem convert_positions_fens (name : String)
    (entries : List (String × List MoveData)) (ps : List ConvertedPosition)
    (h : convert_positions name entries = .ok ps) :
    ps.map ConvertedPosition.fen = entries.map Prod.fst := by
  induction entries generalizing ps with
  | nil =>
      simp only [convert_positions] at h
      obtain rfl : ([] : List ConvertedPosition) = ps := by simpa using h
      simp
  | cons e rest ih =>
      obtain ⟨fen, mds⟩ := e
      unfold convert_positions at h
      rcases hm : convert_moves_for_fen name fen mds with err | cms <;> simp [hm] at h
      rcases hr : convert_positions name rest with err | ps' <;> simp [hr] at h
      subst h
      simp [ih ps' hr]

/-- The two-opening input whose openings share the position key `"pos1"`. -/
def dupOpenings : List JsonOpening :=
  [{ name := "Opening A", moves := [("pos1", [])] },
   { name := "Opening B", moves := [("pos1", [])] }]

/-- Counterexample to C7: when the same position identifier appears under
two different openings, `convert_json_file` emits two `ConvertedPosition`
records with the same FEN — identifiers are not unique in the catalog. -/
theorem convert_json_file_duplicate_fens :
    ∃ ps, convert_json_file dupOpenings = .ok ps ∧
      ¬ (ps.map ConvertedPosition.fen).Nodup := by
  refine ⟨[⟨"pos1", []⟩, ⟨"pos1", []⟩], by decide, by decide⟩

/-- C7 (amended): identifiers are unique among the positions converted
from a single opening, whose moves-dictionary keys are distinct; the
whole-file conversion merely concatenates the per-opening lists, so the
same identifier can recur across openings. -/
theorem convert_opening_unique_fens (opening : JsonOpening)
    (ps : List ConvertedPosition) (h : convert_opening opening = .ok ps)
    (hkeys : (opening.moves.map Prod.fst).Nodup) :
    (ps.map ConvertedPosition.fen).Nodup := by
  unfold convert_opening at h
  rw [convert_positions_fens opening.name opening.moves ps h]
  exact hkeys

/-- Witness for C7 (amended): a two-position opening converts to two
positions with distinct FENs. -/
theorem convert_opening_unique_fens_witness :
    ∃ ps, convert_opening
        { name := "Opening A", moves := [("pos1", []), ("pos2", [])] } = .ok ps ∧
      (ps.map ConvertedPosition.fen).Nodup := by
  have h : convert_opening
      { name := "Opening A", moves := [("pos1", []), ("pos2", [])] } =
      .ok [⟨"pos1", []⟩, ⟨"pos2", []⟩] := by decide
  exact ⟨_, h, convert_opening_unique_fens _ _ h (by decide)⟩

theorem tallyMove_opening_counts (s : MoveTally) (m : ConvertedMove) :
    (tallyMove s m).opening_counts = bumpCount s.opening_counts m.opening_name := by
  unfold tallyMove
  dsimp only
  split_ifs <;> rfl

theorem tallyMove_piece_counts (s : MoveTally) (m : ConvertedMove) :
    (tallyMove s m).piece_type_counts = bumpCount s.piece_type_counts m.piece_type := by
  unfold tallyMove
  dsimp only
  split_ifs <;> rfl

theorem tallyMove_high (s : MoveTally) (m : ConvertedMove) :
    (tallyMove s m).high = s.high + (if 800 ≤ m.weight then 1 else 0) := by
  unfold tallyMove
  dsimp only
  split_ifs <;> simp

theorem tallyMove_medium (s : MoveTally) (m : ConvertedMove) :
    (tallyMove s m).medium =
      s.medium + (if 500 ≤ m.weight ∧ m.weight < 800 then 1 else 0) := by
  unfold tallyMove
  dsimp only
  split_ifs <;> simp <;> omega

theorem tallyMove_low (s : MoveTally) (m : ConvertedMove) :
    (tallyMove s m).low = s.low + (if m.weight < 500 then 1 else 0) := by
  unfold tallyMove
  dsimp only
  split_ifs <;> simp <;> omega

theorem bumpCount_lookup (counts : List (String × Nat)) (key k : String) :
    (bumpCount counts key).lookup k =
      if k = key then some ((counts.lookup k).getD 0 + 1) else counts.lookup k := by
  induction counts with
  | nil =>
      by_cases h : k = key
      · simp [bumpCount, List.lookup, h]
      · have hb : (k == key) = false := by simpa using h
        simp [bumpCount, List.lookup, h, hb]
  | cons e rest ih =>
      obtain ⟨k', v⟩ := e
      by_cases h1 : k' = key
      · subst h1
        by_cases h2 : k = k'
        · simp [bumpCount, List.lookup, h2]
        · have hb : (k == k') = false := by simpa using h2
          simp [bumpCount, List.lookup, h2, hb]
      · by_cases h2 : k = k'
        · subst h2
          have hk : ¬(k = key) := h1
          simp [bumpCount, List.lookup, h1, hk]
        · have hb : (k == k') = false := by simpa using h2
          simp [bumpCount, List.lookup, h1, hb, ih]

theorem foldl_tallyMove_high (ms : List ConvertedMove) (s : MoveTally) :
    (ms.foldl tallyMove s).high =
      s.high + ms.countP (fun m => decide (800 ≤ m.weight)) := by
  induction ms generalizing s with
  | nil => simp
  | cons m rest ih =>
      simp only [List.foldl_cons, List.countP_cons, ih, tallyMove_high]
      by_cases h : 800 ≤ m.weight <;> (simp [h]; try omega)

theorem foldl_tallyMove_medium (ms : List ConvertedMove) (s : MoveTally) :
    (ms.foldl tallyMove s).medium =
      s.medium + ms.countP (fun m => decide (500 ≤ m.weight ∧ m.weight < 800)) := by
  induction ms generalizing s with
  | nil => simp
  | cons m rest ih =>
      simp only [List.foldl_cons, List.countP_cons, ih, tallyMove_medium]
      by_cases h : 500 ≤ m.weight ∧ m.weight < 800 <;> (simp [h]; try omega)

theorem foldl_tallyMove_low (ms : List ConvertedMove) (s : MoveTally) :
    (ms.foldl tallyMove s).low =
      s.low + ms.countP (fun m => decide (m.weight < 500)) := by
  induction ms generalizing s with
  | nil => simp
  | cons m rest ih =>
      simp only [List.foldl_cons, List.countP_cons, ih, tallyMove_low]
      by_cases h : m.weight < 500 <;> (simp [h]; try omega)

theorem foldl_tallyMove_opening (ms : List ConvertedMove) (s : MoveTally)
    (name : String) :
    (((ms.foldl tallyMove s).opening_counts.lookup name).getD 0) =
      ((s.opening_counts.lookup name).getD 0) +
        ms.countP (fun m => m.opening_name == name) := by
  induction ms generalizing s with
  | nil => simp
  | cons m rest ih =>
      simp only [List.foldl_cons, List.countP_cons, ih, tallyMove_opening_counts,
        bumpCount_lookup]
      by_cases h : name = m.opening_name
      · have hb : (m.opening_name == name) = true := by simp [h]
        simp [h, hb]
        omega
      · have hb : (m.opening_name == name) = false := by
          simpa using fun hh => h hh.symm
        simp [h, hb]

theorem foldl_tallyMove_piece (ms : List ConvertedMove) (s : MoveTally)
    (name : String) :
    (((ms.foldl tallyMove s).piece_type_counts.lookup name).getD 0) =
      ((s.piece_type_counts.lookup name).getD 0) +
        ms.countP (fun m => m.piece_type == name) := by
  induction ms generalizing s with
  | nil => simp
  | cons m rest ih =>
      simp only [List.foldl_cons, List.countP_cons, ih, tallyMove_piece_counts,
        bumpCount_lookup]
      by_cases h : name = m.piece_type
      · have hb : (m.piece_type == name) = true := by simp [h]
        simp [h, hb]
        omega
      · have hb : (m.piece_type == name) = false := by
          simpa using fun hh => h hh.symm
        simp [h, hb]

theorem tallyPositions_join (positions : List ConvertedPosition) (s : MoveTally) :
    positions.foldl (fun s p => p.moves.foldl tallyMove s) s =
      ((positions.map ConvertedPosition.moves).flatten).foldl tallyMove s := by
  induction positions generalizing s with
  | nil => simp
  | cons p rest ih => simp [List.foldl_append, ih]

/-- A board move with a given weight, used for the histogram example. -/
def histMove (w : Int) : ConvertedMove :=
  ⟨2, 6, 2, 5, "Pawn", false, false, w, 10, "Test", "2g2f"⟩

/-- The histogram example of the claim: one position holding three moves
of weights 900, 600 and 300. -/
def histExample : List ConvertedPosition :=
  [⟨"pos", [histMove 900, histMove 600, histMove 300]⟩]

/-- C9: the migration statistics report counts positions and moves
exactly, buckets weights at 800 and 500, tallies moves per opening and
per piece type, sorts both distributions descending by count, and reports
`high:1, medium:1, low:1` for weights 900, 600, 300. -/
theorem migration_stats_correct (positions : List ConvertedPosition) (name : String) :
    (migration_stats positions).total_positions = positions.length ∧
    (migration_stats positions).total_moves =
      (positions.map (fun p => p.moves.length)).sum ∧
    (migration_stats positions).weight_high =
      ((positions.map ConvertedPosition.moves).flatten).countP
        (fun m => decide (800 ≤ m.weight)) ∧
    (migration_stats positions).weight_medium =
      ((positions.map ConvertedPosition.moves).flatten).countP
        (fun m => decide (500 ≤ m.weight ∧ m.weight < 800)) ∧
    (migration_stats positions).weight_low =
      ((positions.map ConvertedPosition.moves).flatten).countP
        (fun m => decide (m.weight < 500)) ∧
    ((migration_stats positions).opening_counts.lookup name).getD 0 =
      ((positions.map ConvertedPosition.moves).flatten).countP
        (fun m => m.opening_name == name) ∧
    ((migration_stats positions).piece_type_counts.lookup name).getD 0 =
      ((positions.map ConvertedPosition.moves).flatten).countP
        (fun m => m.piece_type == name) ∧
    List.Sorted countGE (opening_distribution positions) ∧
    List.Sorted countGE (piece_type_distribution positions) ∧
    (migration_stats histExample).weight_high = 1 ∧
    (migration_stats histExample).weight_medium = 1 ∧
    (migration_stats histExample).weight_low = 1 := by
  have hjoin := tallyPositions_join positions {}
  refine ⟨rfl, rfl, ?_, ?_, ?_, ?_, ?_, ?_, ?_, by decide, by decide, by decide⟩
  · show (tallyPositions positions).high = _
    rw [tallyPositions, hjoin, foldl_tallyMove_high]
    simp
  · show (tallyPositions positions).medium = _
    rw [tallyPositions, hjoin, foldl_tallyMove_medium]
    simp
  · show (tallyPositions positions).low = _
    rw [tallyPositions, hjoin, foldl_tallyMove_low]
    simp
  · show ((tallyPositions positions).opening_counts.lookup name).getD 0 = _
    rw [tallyPositions, hjoin, foldl_tallyMove_opening]
    simp
  · show ((tallyPositions positions).piece_type_counts.lookup name).getD 0 = _
    rw [tallyPositions, hjoin, foldl_tallyMove_piece]
    simp
  · exact List.sorted_insertionSort countGE _
  · exact List.sorted_insertionSort countGE _
